import Mathlib

/-!
Verification of the federated login / session-issuance subsystem of the
blockchain-wallet-platform repository (crate `auth`).

The definitions below are a shallow embedding of the Rust source files
`crates/auth/src/{oauth,jwt,sessions,repository,handlers,models}.rs`.
External library behaviour (the `uuid`, `url`, `oauth2`, `jsonwebtoken`,
`redis` crates) is modelled at the precision the source relies on, with a
doc comment at each such definition saying what is modelled.
Machine integers are modelled as `Nat`; wall-clock time is a `Nat` of
seconds; randomness (UUID generation, CSRF tokens) is passed in as an
explicit argument.
-/

namespace Auth

/-! ## Digits and UUID text form

Models the `uuid` crate's hyphenated text encoding: 32 lowercase hex
digits in groups 8-4-4-4-12 separated by `-`.  A `Uuid` value is modelled
as a `Nat` below `2^128`. -/

/-- The sixteen lowercase hexadecimal digit characters. -/
def hexDigitChars : List Char := "0123456789abcdef".data

/-- Digit value `d` (< 16) as a character. -/
def hexDigit (d : Nat) : Char := hexDigitChars.getD d '0'

/-- Value of a hex digit character, `none` for non-digits. -/
def hexVal (c : Char) : Option Nat := hexDigitChars.findIdx? (fun x => x = c)

/-- Least-significant-first digits of `n` in base `b`, padded to width `w`. -/
def toDigitsRev (b : Nat) : Nat → Nat → List Char
  | _, 0 => []
  | n, w + 1 => hexDigit (n % b) :: toDigitsRev b (n / b) w

/-- Read least-significant-first hex digits back into a number. -/
def fromHexRev : List Char → Option Nat
  | [] => some 0
  | c :: cs =>
    match hexVal c, fromHexRev cs with
    | some d, some m => some (d + 16 * m)
    | _, _ => none

/-- The 32 hex characters of a 128-bit value, most significant first. -/
def uuidChars (n : Nat) : List Char := (toDigitsRev 16 n 32).reverse

/-- Hyphenated text form of a UUID, as produced by `Uuid::to_string()`:
groups of 8, 4, 4, 4 and 12 hex digits separated by `-`. -/
def uuidList (n : Nat) : List Char :=
  (uuidChars n).take 8 ++ '-' :: (((uuidChars n).drop 8).take 4 ++ '-' ::
    (((uuidChars n).drop 12).take 4 ++ '-' :: (((uuidChars n).drop 16).take 4 ++ '-' ::
      (uuidChars n).drop 20)))

/-- `Uuid::to_string()`. -/
def uuidToString (n : Nat) : String := String.mk (uuidList n)

/-- Take exactly `k` characters or fail. -/
def readGroup (k : Nat) (cs : List Char) : Option (List Char × List Char) :=
  if (cs.take k).length = k then some (cs.take k, cs.drop k) else none

/-- Consume a single `-` or fail. -/
def readDash : List Char → Option (List Char)
  | '-' :: rest => some rest
  | _ => none

/-- `Uuid::parse_str` restricted to the hyphenated format the source ever
produces: five hex groups of sizes 8-4-4-4-12 separated by `-`.
Returns `none` on any malformed input. -/
def uuidParse (s : String) : Option Nat := do
  let (g1, r1) ← readGroup 8 s.data
  let r1 ← readDash r1
  let (g2, r2) ← readGroup 4 r1
  let r2 ← readDash r2
  let (g3, r3) ← readGroup 4 r2
  let r3 ← readDash r3
  let (g4, r4) ← readGroup 4 r3
  let r4 ← readDash r4
  let (g5, r5) ← readGroup 12 r4
  if r5 = [] then fromHexRev ((g1 ++ g2 ++ g3 ++ g4 ++ g5).reverse) else none

theorem hexVal_hexDigit {d : Nat} (h : d < 16) : hexVal (hexDigit d) = some d := by
  interval_cases d <;> decide

theorem toDigitsRev_length (b : Nat) : ∀ w n, (toDigitsRev b n w).length = w := by
  intro w
  induction w with
  | zero => intro n; rfl
  | succ w ih => intro n; simp [toDigitsRev, ih]

theorem fromHexRev_toDigitsRev : ∀ w n, n < 16 ^ w →
    fromHexRev (toDigitsRev 16 n w) = some n := by
  intro w
  induction w with
  | zero =>
    intro n hn
    simp [Nat.pow_zero, Nat.lt_one_iff] at hn
    simp [hn, toDigitsRev, fromHexRev]
  | succ w ih =>
    intro n hn
    have hdiv : n / 16 < 16 ^ w := by
      rw [Nat.div_lt_iff_lt_mul (by norm_num)]
      calc n < 16 ^ (w + 1) := hn
        _ = 16 ^ w * 16 := by ring
    have hmod : n % 16 < 16 := Nat.mod_lt _ (by norm_num)
    simp only [toDigitsRev, fromHexRev, hexVal_hexDigit hmod, ih _ hdiv]
    congr 1
    omega

theorem uuidChars_length (n : Nat) : (uuidChars n).length = 32 := by
  simp [uuidChars, toDigitsRev_length]

theorem readGroup_append {k : Nat} {a b : List Char} (h : a.length = k) :
    readGroup k (a ++ b) = some (a, b) := by
  subst h
  simp [readGroup, List.take_left, List.drop_left]

/-- Parsing the printed form of a 128-bit value recovers it. -/
theorem uuidParse_uuidToString {n : Nat} (h : n < 2 ^ 128) :
    uuidParse (uuidToString n) = some n := by
  have hlen := uuidChars_length n
  set cs := uuidChars n with hcs
  have h8 : (cs.take 8).length = 8 := by simp [hlen]
  have h84 : ((cs.drop 8).take 4).length = 4 := by simp [hlen]
  have h124 : ((cs.drop 12).take 4).length = 4 := by simp [hlen]
  have h164 : ((cs.drop 16).take 4).length = 4 := by simp [hlen]
  have h20 : (cs.drop 20).length = 12 := by simp [hlen]
  have hrecompose :
      cs.take 8 ++ ((cs.drop 8).take 4 ++ ((cs.drop 12).take 4 ++
        ((cs.drop 16).take 4 ++ cs.drop 20))) = cs := by
    have e16 : (cs.drop 16).take 4 ++ cs.drop 20 = cs.drop 16 := by
      have : (cs.drop 16).drop 4 = cs.drop 20 := by
        rw [List.drop_drop]
      rw [← this, List.take_append_drop]
    have e12 : (cs.drop 12).take 4 ++ cs.drop 16 = cs.drop 12 := by
      have : (cs.drop 12).drop 4 = cs.drop 16 := by
        rw [List.drop_drop]
      rw [← this, List.take_append_drop]
    have e8 : (cs.drop 8).take 4 ++ cs.drop 12 = cs.drop 8 := by
      have : (cs.drop 8).drop 4 = cs.drop 12 := by
        rw [List.drop_drop]
      rw [← this, List.take_append_drop]
    rw [e16, e12, e8, List.take_append_drop]
  have hrev : cs.reverse = toDigitsRev 16 n 32 := by
    simp [hcs, uuidChars]
  simp only [uuidToString, uuidParse, uuidList, ← hcs]
  rw [readGroup_append h8]
  simp only [Option.bind_eq_bind, Option.some_bind, readDash]
  rw [readGroup_append h84]
  simp only [Option.some_bind, readDash]
  rw [readGroup_append h124]
  simp only [Option.some_bind, readDash]
  rw [readGroup_append h164]
  simp only [Option.some_bind, readDash]
  have hfinal : readGroup 12 (cs.drop 20) = some (cs.drop 20, []) := by
    have : cs.drop 20 = cs.drop 20 ++ [] := by simp
    rw [this] at h20 ⊢
    exact readGroup_append (by simpa using h20)
  rw [hfinal]
  simp only [Option.some_bind, if_true]
  rw [List.append_assoc, List.append_assoc, List.append_assoc, hrecompose, hrev]
  exact fromHexRev_toDigitsRev 32 n h

/-! ## Data model (`models.rs`, `config.rs`) -/

/-- Timestamp in UTC, models `chrono::DateTime<Utc>` at second precision
(the precision the claims need). -/
structure DateTimeUtc where
  year : Nat
  month : Nat
  day : Nat
  hour : Nat
  minute : Nat
  second : Nat
deriving DecidableEq, Repr

/-- `models.rs` `User`: internal id (UUID as a `Nat` below `2^128`),
provider subject, email, creation timestamp. -/
structure User where
  id : Nat
  google_sub : String
  email : String
  created_at : DateTimeUtc
deriving DecidableEq, Repr

/-- `repository.rs` `NewUser`. -/
structure NewUser where
  google_sub : String
  email : String
deriving DecidableEq, Repr

/-- `config.rs` `Settings`. -/
structure Settings where
  server_addr : String
  database_url : String
  google_client_id : String
  google_client_secret : String
  google_redirect_url : String
  jwt_secret : String
  redis_url : String
deriving DecidableEq, Repr

/-- `models.rs` `OAuthCallbackQuery`: the callback's query string, an
authorization `code` and an optional anti-forgery `state`. -/
structure OAuthCallbackQuery where
  code : String
  state : Option String
deriving DecidableEq, Repr

/-! ## Identity provider client (`oauth.rs`)

`build_google_client` wraps the `oauth2` crate's `BasicClient`.  The only
fallible steps are the three `Url::parse` calls hidden in `AuthUrl::new`,
`TokenUrl::new` and `RedirectUrl::new`; `ClientId::new` and
`ClientSecret::new` are plain `String` newtypes and never validate. -/

/-- Models `url::Url::parse` success for the inputs that matter here: an
absolute URL must start with a scheme (a nonempty run of ASCII letters)
followed by `:`.  (The real parser enforces more structure after the
colon; none of the claims' inputs depend on that.) -/
def isValidUrl (s : String) : Bool :=
  decide (s.data.takeWhile (fun c => c.isAlpha) ≠ []) &&
    ((s.data.drop (s.data.takeWhile (fun c => c.isAlpha)).length).head? == some ':')

/-- The provider authorization endpoint hardcoded in `oauth.rs`. -/
def googleAuthUrl : String := "https://accounts.google.com/o/oauth2/v2/auth"

/-- The provider token endpoint hardcoded in `oauth.rs`. -/
def googleTokenUrl : String := "https://oauth2.googleapis.com/token"

/-- The configured OAuth client, models `oauth2::basic::BasicClient` after
`BasicClient::new(...).set_redirect_uri(...)`. -/
structure GoogleClient where
  client_id : String
  client_secret : String
  auth_url : String
  token_url : String
  redirect_url : String
deriving DecidableEq, Repr

/-- `oauth.rs` `build_google_client`: parses the hardcoded auth and token
URLs and the configured redirect URL (in source order, each with `?`);
the client id and secret are stored unvalidated. -/
def build_google_client (client_id client_secret redirect_url : String) :
    Except Unit GoogleClient :=
  if isValidUrl googleAuthUrl then
    if isValidUrl googleTokenUrl then
      if isValidUrl redirect_url then
        .ok ⟨client_id, client_secret, googleAuthUrl, googleTokenUrl, redirect_url⟩
      else .error ()
    else .error ()
  else .error ()

/-- Uppercase hex digit, used by percent-encoding. -/
def hexDigitUpper (d : Nat) : Char := "0123456789ABCDEF".data.getD d '0'

/-- One character of `application/x-www-form-urlencoded` encoding as done
by the `url` crate for query pairs: ASCII alphanumerics and `*-._` kept,
space becomes `+`, anything else becomes `%XX` (ASCII inputs only, which
covers every input the source produces). -/
def urlencodeChar (c : Char) : List Char :=
  if c.isAlphanum || c = '-' || c = '.' || c = '_' || c = '*' then [c]
  else if c = ' ' then ['+']
  else ['%', hexDigitUpper (c.toNat / 16), hexDigitUpper (c.toNat % 16)]

/-- Form-urlencoding of a whole string. -/
def urlencode (s : String) : String := String.mk (s.data.map urlencodeChar).flatten

/-- Models `oauth2`'s `authorize_url` with the three scopes added in
`handlers.rs`: the authorization endpoint with query parameters
`response_type=code`, the client id, the anti-forgery `state` (the random
CSRF token, here an explicit argument), the scopes `openid email profile`,
and the redirect URI, all form-urlencoded. -/
def authorize_url (client : GoogleClient) (csrf : String) : String :=
  client.auth_url ++ "?response_type=code&client_id=" ++ urlencode client.client_id ++
    "&state=" ++ urlencode csrf ++
    "&scope=" ++ urlencode "openid email profile" ++
    "&redirect_uri=" ++ urlencode client.redirect_url

/-! ## Token codec (`jwt.rs`)

Models the `jsonwebtoken` crate.  A token is its decoded content: header
algorithm, claims, and the HMAC signature over them; the HMAC itself is
modelled as an (uninterpreted but executable) keyed function `hmacSign`,
so "the signature is valid for secret `s`" is "`sig` equals the value
`hmacSign` recomputes from `s` and the token's own content". -/

/-- Signing algorithms (the two needed to express alg-mismatch). -/
inductive Alg where
  | HS256
  | HS512
deriving DecidableEq, Repr

/-- `jwt.rs` `Claims`. -/
structure Claims where
  sub : String
  exp : Nat
deriving DecidableEq, Repr

/-- Verification errors of `jsonwebtoken::decode` reachable here. -/
inductive JwtError where
  | invalidAlgorithm
  | invalidSignature
  | expiredSignature
deriving DecidableEq, Repr

/-- A small executable stand-in for a string hash, used only to give the
modelled HMAC a concrete value. -/
def strCode (s : String) : Nat :=
  s.data.foldl (fun a c => a * 257 + c.toNat + 1) 7

/-- Code of an algorithm tag. -/
def algCode : Alg → Nat
  | .HS256 => 1
  | .HS512 => 2

/-- Modelled HMAC over the serialized header and claims, keyed by the
secret. -/
def hmacSign (secret : String) (alg : Alg) (c : Claims) : Nat :=
  strCode secret * 3 + algCode alg * 5 + strCode c.sub * 7 + c.exp * 11 + 13

/-- A signed token (decoded form). -/
structure Jwt where
  alg : Alg
  claims : Claims
  sig : Nat
deriving DecidableEq, Repr

/-- `jwt.rs` `create_jwt`: claims are `{sub: user_id.to_string(), exp: now + 24h}`,
signed with HS256 under `secret`.  (`now` models `Utc::now().timestamp()`.) -/
def create_jwt (user_id : Nat) (secret : String) (now : Nat) : Jwt :=
  let claims : Claims := ⟨uuidToString user_id, now + 24 * 60 * 60⟩
  ⟨.HS256, claims, hmacSign secret .HS256 claims⟩

/-- `jwt.rs` `verify_jwt`, i.e. `jsonwebtoken::decode` with
`Validation::new(Algorithm::HS256)`: the header algorithm must be HS256,
the signature must match the recomputed HMAC, and the default `Validation`
applies a 60-second leeway to the expiry check — the token is rejected as
expired only when `exp < now - 60` (`u64` saturating subtraction, hence
`Nat` truncated subtraction). -/
def verify_jwt (t : Jwt) (secret : String) (now : Nat) : Except JwtError Claims :=
  if t.alg ≠ .HS256 then .error .invalidAlgorithm
  else if t.sig ≠ hmacSign secret .HS256 t.claims then .error .invalidSignature
  else if t.claims.exp < now - 60 then .error .expiredSignature
  else .ok t.claims

/-! ## Session store (`sessions.rs`)

Models the Redis-backed `SessionStore`.  Redis state is an association
list from key to (value, absolute expiry); `reachable` models whether
`get_async_connection` (and the subsequent command) succeeds.  `SET ... EX ttl`
stores the value with expiry `now + ttl`; `GET` at time `t` sees the value
only while `t` is before the expiry. -/

/-- Errors of the `redis` crate reachable here. -/
inductive RedisError where
  | connection
deriving DecidableEq, Repr

/-- State of the Redis instance backing the session store. -/
structure SessionState where
  reachable : Bool
  entries : List (String × String × Nat)
deriving DecidableEq, Repr

/-- Redis `GET` with TTL semantics at wall-clock time `now`. -/
def redisGet (st : SessionState) (key : String) (now : Nat) :
    Except RedisError (Option String) :=
  if st.reachable then
    .ok (match st.entries.lookup key with
      | some (v, exp) => if now < exp then some v else none
      | none => none)
  else .error .connection

/-- `sessions.rs` `SessionStore::create_session`: a fresh UUID (the random
draw `fresh` is an explicit argument) becomes the session id; the key
`"session:" ++ id` is set to `user_id.to_string()` with `SET ... EX 86400`
(24 hours).  Returns the session id and the updated store. -/
def create_session (st : SessionState) (user_id : Nat) (fresh : Nat) (now : Nat) :
    Except RedisError (String × SessionState) :=
  if st.reachable then
    .ok (uuidToString fresh,
      { st with entries :=
          ("session:" ++ uuidToString fresh, uuidToString user_id, now + 60 * 60 * 24) ::
            st.entries })
  else .error .connection

/-- `sessions.rs` `SessionStore::restore_session`: `GET` the key
`"session:" ++ session_id`, then `value.and_then(|id| Uuid::parse_str(&id).ok())` —
a missing or expired key and an unparseable stored value all become `Ok(None)`. -/
def restore_session (st : SessionState) (session_id : String) (now : Nat) :
    Except RedisError (Option Nat) :=
  match redisGet st ("session:" ++ session_id) now with
  | .error e => .error e
  | .ok v => .ok (v.bind fun id => uuidParse id)

/-! ## Handlers (`handlers.rs`)

Each handler returns `Json(...)`; the response payload is modelled by
`ApiResponse`.  External interactions (provider network calls, the user
repository, Redis) are modelled by a per-request environment recording
what each collaborator answers. -/

/-- The JSON payloads the auth handlers produce. -/
inductive ApiResponse where
  | authUrl (auth_url : String)
  | authTokens (access_token : Jwt) (session_id : String)
  | verifyToken (user_id : String)
  | sessionRestore (user : User)
  | apiError (error : String)
deriving DecidableEq, Repr

/-- `handlers.rs` `GoogleUserInfo`: the provider profile. -/
structure GoogleUserInfo where
  sub : String
  email : String
deriving DecidableEq, Repr

/-- Outcome of the provider userinfo round trip: transport failure,
JSON-schema failure, or a parsed profile. -/
inductive FetchResult (α : Type) where
  | fetchFailed
  | parseFailed
  | success (a : α)
deriving DecidableEq, Repr

/-- `sqlx::Error` as visible to the handlers: a database error that may be
a uniqueness-constraint violation, or any other error. -/
inductive DbError where
  | uniqueViolation
  | other
deriving DecidableEq, Repr

/-- `handlers.rs` `google_login`: build the client from the settings
(error payload `oauth_client_error` on failure), then return the
authorization URL for scopes `openid email profile`.  The random CSRF
token (`CsrfToken::new_random`) is the explicit argument `csrf`. -/
def google_login (settings : Settings) (csrf : String) : ApiResponse :=
  match build_google_client settings.google_client_id settings.google_client_secret
      settings.google_redirect_url with
  | .error _ => .apiError "oauth_client_error"
  | .ok client => .authUrl (authorize_url client csrf)

/-- What the external collaborators answer during one callback request:
the token exchange (by authorization code), the userinfo fetch (by access
token), the repository lookups/insert, the Redis state, the fresh session
UUID, and the wall clock. -/
structure CallbackEnv where
  settings : Settings
  tokenExchange : String → Except Unit String
  userInfo : String → FetchResult GoogleUserInfo
  findBySub : String → Except DbError (Option User)
  createUser : NewUser → Except DbError User
  sessions : SessionState
  redisUrlOk : Bool
  freshSession : Nat
  now : Nat

/-- Tail of `handlers.rs` `google_callback` after the user is resolved:
`SessionStore::new` (invalid Redis URL → `redis_connection_failed`),
`create_session` (failure → `session_creation_failed`), then `create_jwt`
(total in the model) and the `AuthTokens` payload. -/
def callback_finish (env : CallbackEnv) (user : User) : ApiResponse :=
  if env.redisUrlOk then
    match create_session env.sessions user.id env.freshSession env.now with
    | .error _ => .apiError "session_creation_failed"
    | .ok (session_id, _) =>
      .authTokens (create_jwt user.id env.settings.jwt_secret env.now) session_id
  else .apiError "redis_connection_failed"

/-- `handlers.rs` `google_callback`: build the client, exchange the code,
fetch and parse the profile, look the user up by provider subject, create
it when absent (any `create_user` error → `user_create_failed`), then open
a session and issue the token.  The query's `state` field is received but
never read. -/
def google_callback (env : CallbackEnv) (query : OAuthCallbackQuery) : ApiResponse :=
  match build_google_client env.settings.google_client_id env.settings.google_client_secret
      env.settings.google_redirect_url with
  | .error _ => .apiError "oauth_client_error"
  | .ok _client =>
    match env.tokenExchange query.code with
    | .error _ => .apiError "oauth_token_exchange_failed"
    | .ok access_token =>
      match env.userInfo access_token with
      | .fetchFailed => .apiError "user_info_fetch_failed"
      | .parseFailed => .apiError "user_info_parse_failed"
      | .success info =>
        match env.findBySub info.sub with
        | .error _ => .apiError "user_lookup_failed"
        | .ok (some user) => callback_finish env user
        | .ok none =>
          match env.createUser ⟨info.sub, info.email⟩ with
          | .error _ => .apiError "user_create_failed"
          | .ok user => callback_finish env user

/-- `handlers.rs` `verify_token`: verify the query token and answer with
the subject, or with the uniform `invalid_token` error payload. -/
def verify_token (settings : Settings) (token : Jwt) (now : Nat) : ApiResponse :=
  match verify_jwt token settings.jwt_secret now with
  | .ok claims => .verifyToken claims.sub
  | .error _ => .apiError "invalid_token"

/-- Collaborator answers during one session-restore request. -/
structure RestoreEnv where
  redisUrlOk : Bool
  sessions : SessionState
  getUser : Nat → Except DbError (Option User)
  now : Nat

/-- `handlers.rs` `restore_session` (the handler): `SessionStore::new`
(invalid URL → `redis_connection_failed`), `restore_session` (store error →
`session_restore_failed`, miss → `session_not_found`), then
`get_user` (repository error → `user_lookup_failed`, missing user →
`user_not_found`), else the full `User` payload. -/
def restore_session_handler (env : RestoreEnv) (session_id : String) : ApiResponse :=
  if env.redisUrlOk then
    match restore_session env.sessions session_id env.now with
    | .error _ => .apiError "session_restore_failed"
    | .ok none => .apiError "session_not_found"
    | .ok (some user_id) =>
      match env.getUser user_id with
      | .error _ => .apiError "user_lookup_failed"
      | .ok none => .apiError "user_not_found"
      | .ok (some user) => .sessionRestore user
  else .apiError "redis_connection_failed"

/-! ## Serialized `User` (`serde_json::to_string` of `models.rs` `User`)

Field order is declaration order: `id`, `google_sub`, `email`,
`created_at`.  `Uuid` serializes as its hyphenated string,
`DateTime<Utc>` as an RFC 3339 string, and the two `String` fields with
JSON string escaping. -/

/-- JSON escaping of one character as done by `serde_json`: `"` and `\`
get a backslash, the five short-escape control characters use their short
forms, remaining control characters use `\u00XX`, everything else is
copied verbatim. -/
def escapeJsonChar (c : Char) : List Char :=
  if c = '"' then ['\\', '"']
  else if c = '\\' then ['\\', '\\']
  else if c = '\x08' then ['\\', 'b']
  else if c = '\x0c' then ['\\', 'f']
  else if c = '\n' then ['\\', 'n']
  else if c = '\r' then ['\\', 'r']
  else if c = '\t' then ['\\', 't']
  else if c.toNat < 32 then ['\\', 'u', '0', '0', hexDigit (c.toNat / 16), hexDigit (c.toNat % 16)]
  else [c]

/-- JSON escaping of a string body. -/
def escapeJson (s : String) : List Char := (s.data.map escapeJsonChar).flatten

/-- Decimal digits of `n` padded to width `w`, most significant first. -/
def padDec (n w : Nat) : List Char := (toDigitsRev 10 n w).reverse

/-- RFC 3339 text of a timestamp, as `chrono` serializes `DateTime<Utc>`:
`YYYY-MM-DDTHH:MM:SSZ`. -/
def rfc3339 (t : DateTimeUtc) : List Char :=
  padDec t.year 4 ++ '-' :: (padDec t.month 2 ++ '-' :: (padDec t.day 2 ++ 'T' ::
    (padDec t.hour 2 ++ ':' :: (padDec t.minute 2 ++ ':' :: (padDec t.second 2 ++ ['Z'])))))

/-- The characters of `serde_json::to_string(&user)`:
`{"id":"<uuid>","google_sub":"<sub>","email":"<email>","created_at":"<ts>"}`
(written via `\x7b`/`\x7d` for the braces). -/
def serializeUserChars (u : User) : List Char :=
  '\x7b' :: '"' :: ('i' :: 'd' :: []) ++ '"' :: ':' :: '"' :: uuidList u.id ++
    '"' :: ',' :: '"' :: "google_sub".data ++ '"' :: ':' :: '"' :: escapeJson u.google_sub ++
    '"' :: ',' :: '"' :: "email".data ++ '"' :: ':' :: '"' :: escapeJson u.email ++
    '"' :: ',' :: '"' :: "created_at".data ++ '"' :: ':' :: '"' :: rfc3339 u.created_at ++
    '"' :: '\x7d' :: []

/-- `serde_json::to_string(&user)` as a `String`. -/
def serializeUser (u : User) : String := String.mk (serializeUserChars u)

/-! ## Helper lemmas -/

theorem build_google_client_ok (client_id client_secret : String) {redirect_url : String}
    (h : isValidUrl redirect_url = true) :
    build_google_client client_id client_secret redirect_url =
      .ok ⟨client_id, client_secret, googleAuthUrl, googleTokenUrl, redirect_url⟩ := by
  have h1 : isValidUrl googleAuthUrl = true := by decide
  have h2 : isValidUrl googleTokenUrl = true := by decide
  simp [build_google_client, h1, h2, h]

/-- The settings of the spec's end-to-end scenario: client id `abc`,
secret `s3cr3t`, redirect `https://app/cb`. -/
def specSettings : Settings :=
  ⟨"127.0.0.1:0", "postgres://db", "abc", "s3cr3t", "https://app/cb", "jwtsecret", "redis://r"⟩

/-! ## The claims -/

/-- C5: `create_session u` stores `u` under the freshly generated handle
with a fixed 24-hour expiry, and restoring that handle while it is within
its TTL returns exactly `u`. -/
theorem c5_session_round_trip (st : SessionState) (u fresh now t : Nat)
    (hreach : st.reachable = true) (hu : u < 2 ^ 128) (ht : t < now + 60 * 60 * 24) :
    create_session st u fresh now = .ok (uuidToString fresh,
      { st with entries :=
          ("session:" ++ uuidToString fresh, uuidToString u, now + 60 * 60 * 24) ::
            st.entries }) ∧
    restore_session
      { st with entries :=
          ("session:" ++ uuidToString fresh, uuidToString u, now + 60 * 60 * 24) ::
            st.entries }
      (uuidToString fresh) t = .ok (some u) := by
  refine ⟨by simp [create_session, hreach], ?_⟩
  simp [restore_session, redisGet, hreach, List.lookup, ht, uuidParse_uuidToString hu]

/-- C5 witness. -/
theorem c5_session_round_trip_witness :
    create_session ⟨true, []⟩ 12345 7 1000 = .ok (uuidToString 7,
      ⟨true, [("session:" ++ uuidToString 7, uuidToString 12345, 1000 + 60 * 60 * 24)]⟩) ∧
    restore_session ⟨true, [("session:" ++ uuidToString 7, uuidToString 12345, 1000 + 60 * 60 * 24)]⟩
      (uuidToString 7) 80000 = .ok (some 12345) :=
  c5_session_round_trip ⟨true, []⟩ 12345 7 1000 80000 rfl (by norm_num) (by norm_num)

/-- C6: restoring a never-issued handle and restoring an expired handle
both yield the same `Ok(None)` outcome, which the handler reports as the
single `session_not_found` error; a store-connectivity failure is a
distinct outcome (`Err`, reported as `session_restore_failed`). -/
theorem c6_session_miss_uniform (st : SessionState) (sid v : String) (xp now : Nat)
    (hreach : st.reachable = true) :
    (st.entries.lookup ("session:" ++ sid) = none →
      restore_session st sid now = .ok none) ∧
    (st.entries.lookup ("session:" ++ sid) = some (v, xp) → xp ≤ now →
      restore_session st sid now = .ok none) ∧
    (∀ st2 : SessionState, st2.reachable = false →
      restore_session st2 sid now = .error .connection) ∧
    (∀ env : RestoreEnv, env.redisUrlOk = true →
      restore_session env.sessions sid env.now = .ok none →
      restore_session_handler env sid = .apiError "session_not_found") ∧
    (∀ env : RestoreEnv, env.redisUrlOk = true →
      restore_session env.sessions sid env.now = .error .connection →
      restore_session_handler env sid = .apiError "session_restore_failed") ∧
    ApiResponse.apiError "session_not_found" ≠ ApiResponse.apiError "session_restore_failed" := by
  refine ⟨?_, ?_, ?_, ?_, ?_, by decide⟩
  · intro hmiss
    simp [restore_session, redisGet, hreach, hmiss]
  · intro hhit hexp
    simp [restore_session, redisGet, hreach, hhit, Nat.not_lt.mpr hexp]
  · intro st2 h2
    simp [restore_session, redisGet, h2]
  · intro env hurl hmiss
    simp [restore_session_handler, hurl, hmiss]
  · intro env hurl herr
    simp [restore_session_handler, hurl, herr]

/-- C6 witness. -/
theorem c6_session_miss_uniform_witness :
    (restore_session ⟨true, []⟩ "h" 5 = .ok none) ∧
    (restore_session ⟨true, [("session:h", "v", 3)]⟩ "h" 5 = .ok none) ∧
    (restore_session ⟨false, []⟩ "h" 5 = .error .connection) := by
  have h1 := c6_session_miss_uniform ⟨true, []⟩ "h" "v" 3 5 rfl
  have h2 := c6_session_miss_uniform ⟨true, [("session:h", "v", 3)]⟩ "h" "v" 3 5 rfl
  exact ⟨h1.1 (by decide), h2.2.1 (by decide) (by norm_num), h1.2.2.1 ⟨false, []⟩ rfl⟩

/-- C10: a live session entry whose stored value is not a parseable UUID
makes `restore_session` return `Ok(None)`, which the handler surfaces as
`session_not_found` — exactly what a missing session produces. -/
theorem c10_malformed_session_value (env : RestoreEnv) (sid v : String) (xp : Nat)
    (hurl : env.redisUrlOk = true) (hreach : env.sessions.reachable = true)
    (hhit : env.sessions.entries.lookup ("session:" ++ sid) = some (v, xp))
    (hlive : env.now < xp) (hbad : uuidParse v = none) :
    restore_session env.sessions sid env.now = .ok none ∧
    restore_session_handler env sid = .apiError "session_not_found" ∧
    (∀ env2 : RestoreEnv, env2.redisUrlOk = true → env2.sessions.reachable = true →
      env2.sessions.entries.lookup ("session:" ++ sid) = none →
      restore_session_handler env2 sid = .apiError "session_not_found") := by
  have hrest : restore_session env.sessions sid env.now = .ok none := by
    simp [restore_session, redisGet, hreach, hhit, hlive, hbad]
  refine ⟨hrest, ?_, ?_⟩
  · simp [restore_session_handler, hurl, hrest]
  · intro env2 hurl2 hreach2 hmiss2
    simp [restore_session_handler, hurl2, restore_session, redisGet, hreach2, hmiss2]

/-- C10 witness: the stored value `not-a-uuid` is unparseable and the
handler answers `session_not_found`. -/
theorem c10_malformed_session_value_witness :
    restore_session ⟨true, [("session:h", "not-a-uuid", 99)]⟩ "h" 5 = .ok none ∧
    restore_session_handler ⟨true, ⟨true, [("session:h", "not-a-uuid", 99)]⟩, fun _ => .ok none, 5⟩
      "h" = .apiError "session_not_found" := by
  have h := c10_malformed_session_value
    ⟨true, ⟨true, [("session:h", "not-a-uuid", 99)]⟩, fun _ => .ok none, 5⟩
    "h" "not-a-uuid" 99 rfl rfl (by decide) (by norm_num) (by decide)
  exact ⟨h.1, h.2.1⟩

/-- C8: the callback's result does not depend on the optional anti-forgery
`state` query parameter — it is received but never read. -/
theorem c8_state_ignored (env : CallbackEnv) (q1 q2 : OAuthCallbackQuery)
    (hcode : q1.code = q2.code) :
    google_callback env q1 = google_callback env q2 := by
  unfold google_callback
  rw [hcode]

/-- C8 witness: `state` present vs. absent gives identical responses. -/
theorem c8_state_ignored_witness :
    google_callback
      ⟨specSettings, fun _ => .ok "tok", fun _ => .success ⟨"s", "e"⟩, fun _ => .ok none,
        fun nu => .ok ⟨9, nu.google_sub, nu.email, ⟨2024, 1, 1, 0, 0, 0⟩⟩, ⟨true, []⟩, true, 7, 0⟩
      ⟨"code", some "anything"⟩ =
    google_callback
      ⟨specSettings, fun _ => .ok "tok", fun _ => .success ⟨"s", "e"⟩, fun _ => .ok none,
        fun nu => .ok ⟨9, nu.google_sub, nu.email, ⟨2024, 1, 1, 0, 0, 0⟩⟩, ⟨true, []⟩, true, 7, 0⟩
      ⟨"code", none⟩ :=
  c8_state_ignored _ _ _ rfl

/-- C4 counterexample: a correctly signed token whose expiry lies 30
seconds in the past still verifies successfully (the default `Validation`
of the `jsonwebtoken` crate applies a 60-second leeway), so "verifying a
token whose expiry lies in the past fails" is false as stated. -/
theorem c4_expired_token_verifies :
    (Jwt.mk .HS256 ⟨"u", 970⟩ (hmacSign "topsecret" .HS256 ⟨"u", 970⟩)).claims.exp < 1000 ∧
    verify_jwt (Jwt.mk .HS256 ⟨"u", 970⟩ (hmacSign "topsecret" .HS256 ⟨"u", 970⟩))
      "topsecret" 1000 = .ok ⟨"u", 970⟩ := by
  constructor
  · decide
  · rfl

/-- C4 (amended): the immediate round-trip holds — a token issued for `u`
verifies under the same secret with subject `u.to_string()`; a valid
signature with an expiry more than the 60-second leeway in the past fails
with `ExpiredSignature`; and in general verification succeeds exactly when
the header algorithm is HS256, the signature matches the secret, and the
expiry is no more than 60 seconds in the past. -/
theorem c4_token_roundtrip_with_leeway (u : Nat) (secret : String) (now : Nat) (t : Jwt) :
    verify_jwt (create_jwt u secret now) secret now =
      .ok ⟨uuidToString u, now + 24 * 60 * 60⟩ ∧
    (t.alg = .HS256 → t.sig = hmacSign secret .HS256 t.claims →
      t.claims.exp < now - 60 →
      verify_jwt t secret now = .error .expiredSignature) ∧
    (verify_jwt t secret now = .ok t.claims ↔
      t.alg = .HS256 ∧ t.sig = hmacSign secret .HS256 t.claims ∧ now - 60 ≤ t.claims.exp) := by
  refine ⟨?_, ?_, ?_⟩
  · have hexp : ¬ (now + 24 * 60 * 60 < now - 60) := by omega
    simp [create_jwt, verify_jwt, hexp]
  · intro halg hsig hexp
    simp [verify_jwt, halg, hsig, hexp]
  · unfold verify_jwt
    split_ifs with h1 h2 h3
    · exact iff_of_false (by simp) (fun ⟨ha, _, _⟩ => absurd ha h1)
    · exact iff_of_false (by simp) (fun ⟨_, hs, _⟩ => absurd hs h2)
    · exact iff_of_false (by simp) (fun ⟨_, _, he⟩ => by omega)
    · exact iff_of_true rfl ⟨not_not.mp h1, not_not.mp h2, by omega⟩

/-- C4 witness. -/
theorem c4_token_roundtrip_with_leeway_witness :
    verify_jwt (create_jwt 5 "s3cr3t" 1000) "s3cr3t" 1000 =
      .ok ⟨uuidToString 5, 1000 + 24 * 60 * 60⟩ ∧
    verify_jwt (Jwt.mk .HS256 ⟨"u", 100⟩ (hmacSign "s3cr3t" .HS256 ⟨"u", 100⟩)) "s3cr3t" 1000 =
      .error .expiredSignature := by
  have h := c4_token_roundtrip_with_leeway 5 "s3cr3t" 1000
    (Jwt.mk .HS256 ⟨"u", 100⟩ (hmacSign "s3cr3t" .HS256 ⟨"u", 100⟩))
  exact ⟨h.1, h.2.1 rfl rfl (by norm_num)⟩

/-- C7 counterexample: a client id and secret that are plainly not
well-formed absolute URIs are accepted — only the redirect URI is
parsed — so "fails whenever the client id or the client secret is not a
well-formed absolute URI" is false as stated. -/
theorem c7_invalid_client_id_accepted :
    isValidUrl "not a uri" = false ∧
    build_google_client "not a uri" "also not a uri" "https://app/cb" =
      .ok ⟨"not a uri", "also not a uri", googleAuthUrl, googleTokenUrl, "https://app/cb"⟩ := by
  constructor
  · decide
  · exact build_google_client_ok _ _ (by decide)

/-- C7 (amended): building the identity-provider client fails exactly when
the redirect URI is not a well-formed absolute URL; the client id and
client secret are never validated. -/
theorem c7_redirect_only_validated (client_id client_secret redirect_url : String) :
    (∃ c, build_google_client client_id client_secret redirect_url = .ok c) ↔
      isValidUrl redirect_url = true := by
  constructor
  · intro ⟨c, hc⟩
    by_contra hbad
    have h1 : isValidUrl googleAuthUrl = true := by decide
    have h2 : isValidUrl googleTokenUrl = true := by decide
    simp [build_google_client, h1, h2, hbad] at hc
  · intro h
    exact ⟨_, build_google_client_ok _ _ h⟩

/-- The callback environment of the racing-login scenario: the lookup ran
before the competing insert committed (`find` answered `None`), and the
insert then hit the uniqueness constraint. -/
def c1Env : CallbackEnv :=
  ⟨specSettings, fun _ => .ok "atok", fun _ => .success ⟨"sub123", "u@example.com"⟩,
    fun _ => .ok none, fun _ => .error .uniqueViolation, ⟨true, []⟩, true, 7, 0⟩

/-- C1 counterexample: when `create_user` fails with the
uniqueness-constraint violation, `google_callback` answers the structured
error `user_create_failed` — it performs no `find_by_subject` fallback and
returns no `User` to the caller, so the claimed fallback behaviour is
false as stated. -/
theorem c1_no_fallback_counterexample :
    c1Env.findBySub "sub123" = .ok none ∧
    c1Env.createUser ⟨"sub123", "u@example.com"⟩ = .error .uniqueViolation ∧
    google_callback c1Env ⟨"authcode", none⟩ = .apiError "user_create_failed" := by
  refine ⟨rfl, rfl, ?_⟩
  decide

/-- C1 (amended): on the callback path, whenever the lookup by provider
subject answers "absent" and the subsequent `create_user` fails — in
particular with a uniqueness-constraint violation — the orchestrator
returns the `user_create_failed` error to the caller; it does not fall
back to `find_by_subject`. -/
theorem c1_create_failure_errors (env : CallbackEnv) (q : OAuthCallbackQuery)
    (info : GoogleUserInfo) (tok : String) (e : DbError)
    (hredir : isValidUrl env.settings.google_redirect_url = true)
    (hex : env.tokenExchange q.code = .ok tok)
    (hinfo : env.userInfo tok = .success info)
    (hfind : env.findBySub info.sub = .ok none)
    (hcreate : env.createUser ⟨info.sub, info.email⟩ = .error e) :
    google_callback env q = .apiError "user_create_failed" := by
  simp only [google_callback,
    build_google_client_ok env.settings.google_client_id env.settings.google_client_secret hredir,
    hex, hinfo, hfind, hcreate]

/-- C1 witness. -/
theorem c1_create_failure_errors_witness :
    google_callback c1Env ⟨"authcode", some "st"⟩ = .apiError "user_create_failed" :=
  c1_create_failure_errors c1Env ⟨"authcode", some "st"⟩ ⟨"sub123", "u@example.com"⟩
    "atok" .uniqueViolation (by decide) rfl rfl rfl rfl

/-- A live session owned by user id 5 under handle `uuidToString 7`,
while the user record is absent from the repository. -/
def c2UserMissingEnv : RestoreEnv :=
  ⟨true, ⟨true, [("session:" ++ uuidToString 7, uuidToString 5, 100)]⟩, fun _ => .ok none, 0⟩

/-- No session at all (and the same absent user repository). -/
def c2SessionMissingEnv : RestoreEnv := ⟨true, ⟨true, []⟩, fun _ => .ok none, 0⟩

/-- C2 counterexample: a missing user record behind a live session yields
`user_not_found` while a missing session yields `session_not_found` — two
distinguishable responses, so "the same single not-found result" is false
as stated. -/
theorem c2_distinct_not_found_counterexample :
    restore_session_handler c2UserMissingEnv (uuidToString 7) = .apiError "user_not_found" ∧
    restore_session_handler c2SessionMissingEnv (uuidToString 7) =
      .apiError "session_not_found" ∧
    ApiResponse.apiError "user_not_found" ≠ ApiResponse.apiError "session_not_found" := by
  refine ⟨by decide, by decide, by decide⟩

/-- C2 (amended): the session-restore flow reports a missing session as
`session_not_found` and a missing user record behind a live session as
`user_not_found`; the two missing-record cases are reported by distinct
error kinds. -/
theorem c2_missing_cases_distinct (env : RestoreEnv) (sid : String) (uid : Nat)
    (hurl : env.redisUrlOk = true) :
    (restore_session env.sessions sid env.now = .ok none →
      restore_session_handler env sid = .apiError "session_not_found") ∧
    (restore_session env.sessions sid env.now = .ok (some uid) →
      env.getUser uid = .ok none →
      restore_session_handler env sid = .apiError "user_not_found") ∧
    ApiResponse.apiError "session_not_found" ≠ ApiResponse.apiError "user_not_found" := by
  refine ⟨?_, ?_, by decide⟩
  · intro h
    simp [restore_session_handler, hurl, h]
  · intro h hu
    simp [restore_session_handler, hurl, h, hu]

/-- C2 witness. -/
theorem c2_missing_cases_distinct_witness :
    restore_session_handler c2SessionMissingEnv (uuidToString 7) =
      .apiError "session_not_found" ∧
    restore_session_handler c2UserMissingEnv (uuidToString 7) = .apiError "user_not_found" :=
  ⟨(c2_missing_cases_distinct c2SessionMissingEnv (uuidToString 7) 5 rfl).1 rfl,
   (c2_missing_cases_distinct c2UserMissingEnv (uuidToString 7) 5 rfl).2.1 rfl rfl⟩

set_option maxRecDepth 8000 in
/-- C3 counterexample: two login-start invocations with the same
configuration differ in the freshly drawn anti-forgery state token, and
the resulting authorization URLs differ — construction is not
deterministic across invocations as claimed. -/
theorem c3_url_not_deterministic :
    google_login specSettings "csrftokenone" ≠ google_login specSettings "csrftokentwo" := by
  decide

set_option maxRecDepth 8000 in
/-- C3 (amended): for a fixed configuration the authorization URL is a
fixed function of the randomly drawn `state` token alone — two invocations
agree except for the `state` value — and it carries `client_id=abc`,
`redirect_uri=https%3A%2F%2Fapp%2Fcb` and `scope=openid+email+profile`. -/
theorem c3_deterministic_modulo_state :
    ∃ pre post : String,
      (∀ csrf : String,
        google_login specSettings csrf = .authUrl (pre ++ urlencode csrf ++ post)) ∧
      "client_id=abc".data <:+: pre.data ∧
      "redirect_uri=https%3A%2F%2Fapp%2Fcb".data <:+: post.data ∧
      "scope=openid+email+profile".data <:+: post.data := by
  refine ⟨googleAuthUrl ++ "?response_type=code&client_id=" ++ urlencode "abc" ++ "&state=",
    "&scope=" ++ urlencode "openid email profile" ++ "&redirect_uri=" ++
      urlencode "https://app/cb", ?_, by decide, by decide, by decide⟩
  intro csrf
  have hb : build_google_client "abc" "s3cr3t" "https://app/cb" =
      .ok ⟨"abc", "s3cr3t", googleAuthUrl, googleTokenUrl, "https://app/cb"⟩ :=
    build_google_client_ok _ _ (by decide)
  simp only [google_login, specSettings, hb]
  refine congrArg ApiResponse.authUrl (String.ext ?_)
  simp [authorize_url, String.data_append, List.append_assoc]

/-! ## Substring machinery for C9

A pattern that avoids a character `c` and occurs in `x ++ c :: y` occurs
entirely in `x` or entirely in `y`; iterating this at the `"` boundaries
of the serialized JSON confines any occurrence to a single field run. -/

theorem notMem_strip_cons {α : Type} {p y : List α} {c : α} (hc : c ∉ p)
    (h : p <:+: c :: y) : p <:+: y := by
  obtain ⟨s, t, hst⟩ := h
  cases s with
  | nil =>
    cases p with
    | nil => exact ⟨[], y, by simp⟩
    | cons a p' =>
      simp only [List.nil_append, List.cons_append, List.cons.injEq] at hst
      exact absurd (by rw [← hst.1]; exact List.mem_cons_self a p') hc
  | cons b s' =>
    simp only [List.cons_append, List.cons.injEq] at hst
    exact ⟨s', t, hst.2⟩

theorem notMem_strip_pref {α : Type} :
    ∀ (x : List α) {p y : List α} {c : α}, c ∉ p → p <+: x ++ c :: y → p <+: x := by
  intro x
  induction x with
  | nil =>
    intro p y c hc h
    cases p with
    | nil => exact List.nil_prefix
    | cons a p' =>
      obtain ⟨t, ht⟩ := h
      simp only [List.nil_append, List.cons_append, List.cons.injEq] at ht
      exact absurd (by rw [← ht.1]; exact List.mem_cons_self a p') hc
  | cons b x' ih =>
    intro p y c hc h
    cases p with
    | nil => exact List.nil_prefix
    | cons a p' =>
      obtain ⟨t, ht⟩ := h
      simp only [List.cons_append, List.cons.injEq] at ht
      have hc' : c ∉ p' := fun hm => hc (List.mem_cons_of_mem _ hm)
      obtain ⟨t2, ht2⟩ := ih hc' ⟨t, ht.2⟩
      exact ⟨t2, by simp [ht.1, ht2]⟩

theorem splitAt_char {α : Type} :
    ∀ (x : List α) {p y : List α} {c : α}, c ∉ p →
      p <:+: x ++ c :: y → p <:+: x ∨ p <:+: y := by
  intro x
  induction x with
  | nil =>
    intro p y c hc h
    exact Or.inr (notMem_strip_cons hc h)
  | cons b x' ih =>
    intro p y c hc h
    obtain ⟨s, t, hst⟩ := h
    cases s with
    | nil =>
      have hpre : p <+: (b :: x') ++ c :: y := ⟨t, by simpa using hst⟩
      obtain ⟨t2, ht2⟩ := notMem_strip_pref _ hc hpre
      exact Or.inl ⟨[], t2, by simpa using ht2⟩
    | cons a s' =>
      simp only [List.cons_append, List.cons.injEq] at hst
      rcases ih hc ⟨s', t, hst.2⟩ with h1 | h2
      · obtain ⟨s2, t2, h2⟩ := h1
        exact Or.inl ⟨b :: s2, t2, by simp [← h2]⟩
      · exact Or.inr h2

theorem underscore_kill {p run : List Char} (hund : '_' ∈ p) (hrun : '_' ∉ run) :
    ¬ p <:+: run := fun h => hrun (h.subset hund)

theorem hexDigit_mem (d : Nat) : hexDigit d ∈ hexDigitChars := by
  unfold hexDigit
  rcases Nat.lt_or_ge d hexDigitChars.length with h | h
  · rw [List.getD_eq_getElem _ _ h]
    exact List.getElem_mem _
  · rw [List.getD_eq_default _ _ h]
    decide

theorem toDigitsRev_chars (b : Nat) : ∀ w n, ∀ c ∈ toDigitsRev b n w, c ∈ hexDigitChars := by
  intro w
  induction w with
  | zero =>
    intro n c hc
    simp [toDigitsRev] at hc
  | succ w ih =>
    intro n c hc
    simp only [toDigitsRev, List.mem_cons] at hc
    rcases hc with rfl | hc
    · exact hexDigit_mem _
    · exact ih _ c hc

theorem uuidList_chars (n : Nat) : ∀ c ∈ uuidList n, c ∈ hexDigitChars ∨ c = '-' := by
  have hbase : ∀ c ∈ uuidChars n, c ∈ hexDigitChars := fun c hc =>
    toDigitsRev_chars 16 32 n c (List.mem_reverse.mp hc)
  intro c hc
  simp only [uuidList, List.mem_append, List.mem_cons] at hc
  rcases hc with h | h | h | h | h | h | h | h | h
  · exact Or.inl (hbase c (List.take_subset _ _ h))
  · exact Or.inr h
  · exact Or.inl (hbase c (List.drop_subset _ _ (List.take_subset _ _ h)))
  · exact Or.inr h
  · exact Or.inl (hbase c (List.drop_subset _ _ (List.take_subset _ _ h)))
  · exact Or.inr h
  · exact Or.inl (hbase c (List.drop_subset _ _ (List.take_subset _ _ h)))
  · exact Or.inr h
  · exact Or.inl (hbase c (List.drop_subset _ _ h))

theorem underscore_not_in_uuidList (n : Nat) : '_' ∉ uuidList n := by
  intro h
  rcases uuidList_chars n '_' h with h1 | h1
  · exact absurd h1 (by decide)
  · exact absurd h1 (by decide)

theorem rfc3339_chars (t : DateTimeUtc) :
    ∀ c ∈ rfc3339 t, c ∈ hexDigitChars ∨ c ∈ (['-', ':', 'T', 'Z'] : List Char) := by
  have hpad : ∀ n w, ∀ c ∈ padDec n w, c ∈ hexDigitChars := fun n w c hc =>
    toDigitsRev_chars 10 w n c (List.mem_reverse.mp hc)
  intro c hc
  simp only [rfc3339, List.mem_append, List.mem_cons] at hc
  rcases hc with h | h | h | h | h | h | h | h | h | h | h | h
  · exact Or.inl (hpad _ _ c h)
  · subst h; exact Or.inr (by decide)
  · exact Or.inl (hpad _ _ c h)
  · subst h; exact Or.inr (by decide)
  · exact Or.inl (hpad _ _ c h)
  · subst h; exact Or.inr (by decide)
  · exact Or.inl (hpad _ _ c h)
  · subst h; exact Or.inr (by decide)
  · exact Or.inl (hpad _ _ c h)
  · subst h; exact Or.inr (by decide)
  · exact Or.inl (hpad _ _ c h)
  · rcases h with h | h
    · subst h; exact Or.inr (by decide)
    · simp at h

theorem underscore_not_in_rfc3339 (t : DateTimeUtc) : '_' ∉ rfc3339 t := by
  intro h
  rcases rfc3339_chars t '_' h with h1 | h1
  · exact absurd h1 (by decide)
  · exact absurd h1 (by decide)

/-- A character `serde_json` copies verbatim into a JSON string: not `"`,
not `\`, not a control character. -/
def jsonPlainChar (c : Char) : Bool :=
  (c != '"') && (c != '\\') && decide (32 ≤ c.toNat)

theorem escapeJsonChar_plain {c : Char} (h : jsonPlainChar c = true) :
    escapeJsonChar c = [c] := by
  simp only [jsonPlainChar, Bool.and_eq_true, bne_iff_ne, ne_eq, decide_eq_true_eq] at h
  obtain ⟨⟨h1, h2⟩, h3⟩ := h
  have hctl : ¬ c.toNat < 32 := by omega
  have e8 : ¬ c = '\x08' := fun he => by subst he; exact absurd h3 (by decide)
  have ec : ¬ c = '\x0c' := fun he => by subst he; exact absurd h3 (by decide)
  have en : ¬ c = '\n' := fun he => by subst he; exact absurd h3 (by decide)
  have er : ¬ c = '\r' := fun he => by subst he; exact absurd h3 (by decide)
  have et : ¬ c = '\t' := fun he => by subst he; exact absurd h3 (by decide)
  simp [escapeJsonChar, h1, h2, e8, ec, en, er, et, hctl]

theorem escapeList_plain :
    ∀ l : List Char, (∀ c ∈ l, jsonPlainChar c = true) →
      (l.map escapeJsonChar).flatten = l := by
  intro l
  induction l with
  | nil => intro _; rfl
  | cons c cs ih =>
    intro h
    simp only [List.map_cons, List.flatten_cons]
    rw [escapeJsonChar_plain (h c (List.mem_cons_self c cs)),
      ih (fun x hx => h x (List.mem_cons_of_mem _ hx))]
    rfl

theorem escapeJson_plain {s : String} (h : ∀ c ∈ s.data, jsonPlainChar c = true) :
    escapeJson s = s.data := escapeList_plain s.data h

/-- The serialized `User` as the alternation of its seventeen quote-free
runs separated by the sixteen `"` characters. -/
theorem serializeUserChars_runs (u : User) :
    serializeUserChars u =
      ['\x7b'] ++ '"' ::
      ("id".data ++ '"' ::
      ([':'] ++ '"' ::
      (uuidList u.id ++ '"' ::
      ([','] ++ '"' ::
      ("google_sub".data ++ '"' ::
      ([':'] ++ '"' ::
      (escapeJson u.google_sub ++ '"' ::
      ([','] ++ '"' ::
      ("email".data ++ '"' ::
      ([':'] ++ '"' ::
      (escapeJson u.email ++ '"' ::
      ([','] ++ '"' ::
      ("created_at".data ++ '"' ::
      ([':'] ++ '"' ::
      (rfc3339 u.created_at ++ '"' ::
      ['\x7d']))))))))))))))) := by
  simp [serializeUserChars, List.append_assoc]

/-- Any occurrence of a quote-free, underscore-carrying pattern in the
serialized `User` lies inside one of the field-name or field-value runs;
with the runs excluded by hypothesis, there is no occurrence at all. -/
theorem creds_not_in_serializeUser (u : User) (p : List Char)
    (hq : '"' ∉ p) (hund : '_' ∈ p)
    (hgs : ¬ p <:+: "google_sub".data) (hca : ¬ p <:+: "created_at".data)
    (hsub : ¬ p <:+: escapeJson u.google_sub) (hem : ¬ p <:+: escapeJson u.email) :
    ¬ p <:+: serializeUserChars u := by
  intro h
  rw [serializeUserChars_runs] at h
  rcases splitAt_char _ hq h with hk | h
  · exact underscore_kill hund (by decide) hk
  rcases splitAt_char _ hq h with hk | h
  · exact underscore_kill hund (by decide) hk
  rcases splitAt_char _ hq h with hk | h
  · exact underscore_kill hund (by decide) hk
  rcases splitAt_char _ hq h with hk | h
  · exact underscore_kill hund (underscore_not_in_uuidList u.id) hk
  rcases splitAt_char _ hq h with hk | h
  · exact underscore_kill hund (by decide) hk
  rcases splitAt_char _ hq h with hk | h
  · exact hgs hk
  rcases splitAt_char _ hq h with hk | h
  · exact underscore_kill hund (by decide) hk
  rcases splitAt_char _ hq h with hk | h
  · exact hsub hk
  rcases splitAt_char _ hq h with hk | h
  · exact underscore_kill hund (by decide) hk
  rcases splitAt_char _ hq h with hk | h
  · exact underscore_kill hund (by decide) hk
  rcases splitAt_char _ hq h with hk | h
  · exact underscore_kill hund (by decide) hk
  rcases splitAt_char _ hq h with hk | h
  · exact hem hk
  rcases splitAt_char _ hq h with hk | h
  · exact underscore_kill hund (by decide) hk
  rcases splitAt_char _ hq h with hk | h
  · exact hca hk
  rcases splitAt_char _ hq h with hk | h
  · exact underscore_kill hund (by decide) hk
  rcases splitAt_char _ hq h with hk | h
  · exact underscore_kill hund (underscore_not_in_rfc3339 u.created_at) hk
  · exact underscore_kill hund (by decide) h

set_option maxRecDepth 8000 in
/-- C9 counterexample: a `User` whose email field itself contains the text
`access_token` serializes to a string containing `access_token`, so the
claim quantified over every email value is false as stated. -/
theorem c9_email_leak_counterexample :
    "access_token".data <:+:
      (serializeUser ⟨5, "subsubsubs", "access_token@example.com",
        ⟨2024, 1, 1, 0, 0, 0⟩⟩).data := by
  decide

/-- C9 (amended): for every `User` whose provider subject and email
consist of plain JSON characters (no `"`, no `\`, no control characters —
as the repository's own generators produce) and do not themselves contain
`access_token` or `refresh_token`, the serialized record contains neither
substring. -/
theorem c9_credential_isolation (u : User)
    (hs : ∀ c ∈ u.google_sub.data, jsonPlainChar c = true)
    (he : ∀ c ∈ u.email.data, jsonPlainChar c = true)
    (hs1 : ¬ "access_token".data <:+: u.google_sub.data)
    (he1 : ¬ "access_token".data <:+: u.email.data)
    (hs2 : ¬ "refresh_token".data <:+: u.google_sub.data)
    (he2 : ¬ "refresh_token".data <:+: u.email.data) :
    ¬ "access_token".data <:+: (serializeUser u).data ∧
    ¬ "refresh_token".data <:+: (serializeUser u).data := by
  have hesub := escapeJson_plain hs
  have heem := escapeJson_plain he
  constructor
  · exact creds_not_in_serializeUser u _ (by decide) (by decide) (by decide) (by decide)
      (by rw [hesub]; exact hs1) (by rw [heem]; exact he1)
  · exact creds_not_in_serializeUser u _ (by decide) (by decide) (by decide) (by decide)
      (by rw [hesub]; exact hs2) (by rw [heem]; exact he2)

/-- C9 witness. -/
theorem c9_credential_isolation_witness :
    ¬ "access_token".data <:+:
      (serializeUser ⟨5, "subsubsubs", "user@example.com", ⟨2024, 1, 1, 0, 0, 0⟩⟩).data ∧
    ¬ "refresh_token".data <:+:
      (serializeUser ⟨5, "subsubsubs", "user@example.com", ⟨2024, 1, 1, 0, 0, 0⟩⟩).data :=
  c9_credential_isolation ⟨5, "subsubsubs", "user@example.com", ⟨2024, 1, 1, 0, 0, 0⟩⟩
    (by decide) (by decide) (by decide) (by decide) (by decide) (by decide)

end Auth
